import Mathlib

/-!
Verification of the school sports-court booking application (`app.py`).

The application is a single-file Flask app over SQLite.  We give a shallow
embedding of its data model and of the operations the claims are about:

* dates are modelled by their proleptic Gregorian ordinal (Python's
  `date.toordinal()`, a `Nat`); `date.weekday()` is `(ordinal + 6) % 7`
  with Monday = 0 (ordinal 1, i.e. 0001-01-01, is a Monday);
* times of day are modelled as minutes since midnight (`07:30` is `450`,
  `14:10` is `850`); the source formats them as `"HH:MM"` strings, which is
  an injective function of minutes within a day;
* the SQLite database is a record of the three tables; `AUTOINCREMENT`
  primary keys are modelled by explicit next-id counters;
* the `PRAGMA foreign_keys = ON` in `init_db` only affects the connection
  opened by `init_db`, which is closed immediately; every operation opens a
  fresh connection where foreign-key enforcement is off, so the only
  `IntegrityError` that `INSERT INTO bookings` can raise is a violation of
  the `UNIQUE(booking_date, period, sport)` constraint;
* `append_to_excel` writes a spreadsheet file and performs a read-only
  `SELECT` on students: it does not change the database and is not
  modelled beyond that fact.
-/

namespace BookingApp

/-- Python `date.weekday()` for a date given by its proleptic Gregorian
ordinal `d` (`date.toordinal()`): Monday = 0 … Sunday = 6. -/
def weekday (d : Nat) : Nat := (d + 6) % 7

/-- One entry of the list built by `get_day_periods`: the dict
`{'period': n, 'start': …, 'end': …, 'bookable': …}`, with the two
`"HH:MM"` strings represented as minutes since midnight. -/
structure PeriodInfo where
  period : Nat
  pstart : Nat
  pend : Nat
  bookable : Bool
deriving DecidableEq, Repr

/-- One of the three back-to-back loops in `get_day_periods`: append
`count` consecutive periods of `plen` minutes, starting at clock minute
`cur`, each numbered `len(periods) + 1`.  The pair is `(cur, periods)`. -/
def appendRun (plen : Nat) : Nat → Nat × List PeriodInfo → Nat × List PeriodInfo
  | 0, s => s
  | n + 1, (cur, ps) =>
      appendRun plen n (cur + plen, ps ++ [⟨ps.length + 1, cur, cur + plen, true⟩])

/-- `periods[-1]['bookable'] = False` (guarded by `if periods:`). -/
def markLast : List PeriodInfo → List PeriodInfo
  | [] => []
  | [p] => [{ p with bookable := false }]
  | p :: rest => p :: markLast rest

/-- `periods[0]['bookable'] = False` (guarded by `if periods:`). -/
def markFirst : List PeriodInfo → List PeriodInfo
  | [] => []
  | p :: rest => { p with bookable := false } :: rest

/-- The body of `get_day_periods` after `wd = target_date.weekday()`:
Fri–Sun give no school; Mon/Wed give 8 periods of 45 minutes, Tue/Thu 9
periods of 40 minutes; school starts 07:30 (minute 450); four periods
back-to-back, a 25-minute break, three periods back-to-back, a 15-minute
break, then the remaining periods; every period is bookable except the
last one, and on Thursday also the first one. -/
def periodsForWeekday (wd : Nat) : List PeriodInfo :=
  if wd > 3 then []
  else
    let period_length := if wd == 0 || wd == 2 then 45 else 40
    let total_periods := if wd == 0 || wd == 2 then 8 else 9
    let s1 := appendRun period_length 4 (450, [])
    let s3 := appendRun period_length 3 (s1.1 + 25, s1.2)
    let s5 := appendRun period_length (total_periods - s3.2.length) (s3.1 + 15, s3.2)
    let periods := markLast s5.2
    if wd == 3 then markFirst periods else periods

/-- `get_day_periods(target_date)`: the available periods for the date of
ordinal `target_date`.  The whole body depends on the date only through
`wd = target_date.weekday()`. -/
def get_day_periods (target_date : Nat) : List PeriodInfo :=
  periodsForWeekday (weekday target_date)

example : (get_day_periods 1).length = 8 := by decide
example : (get_day_periods 2).length = 9 := by decide
example : get_day_periods 5 = [] := by decide
example : (get_day_periods 1).map PeriodInfo.pend = [495, 540, 585, 630, 700, 745, 790, 850] := by decide
example : (get_day_periods 4).map PeriodInfo.bookable = [false, true, true, true, true, true, true, true, false] := by decide

/-! ## Grade normalisation (`normalize_grade_input`) -/

/-- Python `s.strip()`: drop leading and trailing whitespace. -/
def pyStrip (s : String) : String :=
  String.mk (((s.data.dropWhile Char.isWhitespace).reverse.dropWhile Char.isWhitespace).reverse)

/-- Python `s.upper()` (the inputs here are ASCII). -/
def pyUpper (s : String) : String :=
  String.mk (s.data.map Char.toUpper)

/-- Python `s.lower()` (the inputs here are ASCII). -/
def pyLower (s : String) : String :=
  String.mk (s.data.map Char.toLower)

/-- `re.findall(r"\d{1,2}", s)`: the non-overlapping, greedy matches of
one-or-two consecutive digits, scanning left to right.  (When a single
digit is followed by a non-digit, the scan resumes at that non-digit,
which it then skips; the second branch takes both steps at once.) -/
def findallDigits12 : List Char → List String
  | [] => []
  | [c] => if c.isDigit then [String.mk [c]] else []
  | c :: c2 :: rest =>
      if c.isDigit then
        if c2.isDigit then String.mk [c, c2] :: findallDigits12 rest
        else String.mk [c] :: findallDigits12 rest
      else findallDigits12 (c2 :: rest)

/-- Python `int(s)` on a non-empty string of decimal digits. -/
def digitsToNat (s : String) : Nat :=
  s.data.foldl (fun n c => n * 10 + (c.toNat - 48)) 0

/-- `sub in s` on Python strings, over the character sequences. -/
def hasSubSeq (sub : List Char) : List Char → Bool
  | [] => sub.isEmpty
  | c :: rest => sub.isPrefixOf (c :: rest) || hasSubSeq sub rest

/-- Python `str.title()` (for the ASCII letters that occur here): a letter
after a non-letter is uppercased, a letter after a letter is lowercased. -/
def pyTitleAux : Bool → List Char → List Char
  | _, [] => []
  | prevAlpha, c :: rest =>
      if c.isAlpha then
        (if prevAlpha then c.toLower else c.toUpper) :: pyTitleAux true rest
      else c :: pyTitleAux false rest

/-- Python `s.strip().title()`. -/
def stripTitle (s : String) : String :=
  String.mk (pyTitleAux false (pyStrip s).data)

/-- `normalize_grade_input(raw)`: `None` on a falsy (empty) input; else the
last 1–2-digit number decides (11 or 12 ↦ "Year 12", 13 ↦ "Year 13");
else a literal "12" / "13" substring decides; else `raw.strip().title()`. -/
def normalize_grade_input (raw : String) : Option String :=
  if raw == "" then none
  else
    let s := pyUpper (pyStrip raw)
    let digits := findallDigits12 s.data
    let byVal : Option String :=
      match digits.getLast? with
      | some dstr =>
          let val := digitsToNat dstr
          if val == 11 || val == 12 then some "Year 12"
          else if val == 13 then some "Year 13"
          else none
      | none => none
    match byVal with
    | some g => some g
    | none =>
        if hasSubSeq "12".data s.data then some "Year 12"
        else if hasSubSeq "13".data s.data then some "Year 13"
        else some (stripTitle raw)

example : normalize_grade_input "" = none := by decide
example : normalize_grade_input "y12" = some "Year 12" := by decide
example : normalize_grade_input "Grade 11" = some "Year 12" := by decide
example : normalize_grade_input "13" = some "Year 13" := by decide
example : normalize_grade_input "  twelve " = some "Twelve" := by decide

/-! ## Database model -/

/-- A row of the `students` table. -/
structure Student where
  id : Nat
  name : String
  email : Option String
  grade : Option String
  black_points : Nat
deriving DecidableEq, Repr

/-- A row of the `bookings` table. -/
structure Booking where
  id : Nat
  booking_date : String
  period : Int
  sport : String
  leader_student_id : Option Nat
  other_players : String
  created_at : String
deriving DecidableEq, Repr

/-- The SQLite database: the three tables, plus the `AUTOINCREMENT`
counters of the two integer primary keys (SQLite hands out 1, 2, …). -/
structure DBState where
  settings : List (String × String)
  students : List Student
  bookings : List Booking
  next_student_id : Nat
  next_booking_id : Nat
deriving DecidableEq, Repr

/-- `BLACKPOINTS_DEFAULT_THRESHOLD = 3`. -/
def BLACKPOINTS_DEFAULT_THRESHOLD : Int := 3

/-- The state made by `init_db()` on a fresh database: empty tables and
the default setting `blackpoint_threshold = str(3)`. -/
def initState : DBState :=
  { settings := [("blackpoint_threshold", "3")]
    students := []
    bookings := []
    next_student_id := 1
    next_booking_id := 1 }

/-- `get_setting(key, default)` without its default: the stored value of
`key`, if any. -/
def get_setting (st : DBState) (key : String) : Option String :=
  (st.settings.find? (fun kv => kv.1 == key)).map (fun kv => kv.2)

/-- `set_setting(key, value)`: `INSERT OR REPLACE INTO settings`. -/
def set_setting (st : DBState) (key value : String) : DBState :=
  { st with settings := st.settings.filter (fun kv => kv.1 != key) ++ [(key, value)] }

/-- Python `int()` on the strings that reach it here: the stored
`blackpoint_threshold` values, which `admin_settings` checks with
`isdigit()` before storing, so they are strings of decimal digits. -/
def pyInt (s : String) : Int :=
  Int.ofNat (digitsToNat s)

/-- `is_slot_taken(booking_date, period, sport)`:
`SELECT COUNT(*) … > 0` over the matching rows. -/
def is_slot_taken (st : DBState) (booking_date : String) (period : Int) (sport : String) : Bool :=
  decide (0 < (st.bookings.filter
    (fun b => b.booking_date == booking_date && b.period == period && b.sport == sport)).length)

/-- `create_booking(booking_date, period, sport, leader_id, other_players)`
at wall-clock string `now`: the `INSERT` raises `IntegrityError` exactly
when a row with the same `(booking_date, period, sport)` triple exists
(the `UNIQUE` constraint; foreign keys are not enforced, see the file
header), which the code turns into `(False, "slot_taken")`; otherwise the
row is appended and `(True, None)` returned.  `append_to_excel` runs after
the commit and does not change the database. -/
def create_booking (st : DBState) (booking_date : String) (period : Int) (sport : String)
    (leader_id : Option Nat) (other_players : String) (now : String) :
    (Bool × Option String) × DBState :=
  if st.bookings.any
      (fun b => b.booking_date == booking_date && b.period == period && b.sport == sport) then
    ((false, some "slot_taken"), st)
  else
    ((true, none),
     { st with
        bookings := st.bookings ++
          [⟨st.next_booking_id, booking_date, period, sport, leader_id, other_players, now⟩]
        next_booking_id := st.next_booking_id + 1 })

/-- The part of `find_or_create_student` after the email lookup fails or
is skipped: search by `name.strip()`, else `INSERT` a fresh student with
0 black points. -/
def focs_fallback (st : DBState) (name email : String) (grade : Option String) :
    Nat × DBState :=
  match st.students.find? (fun s => s.name == pyStrip name) with
  | some row => (row.id, st)
  | none =>
      (st.next_student_id,
       { st with
          students := st.students ++
            [⟨st.next_student_id, pyStrip name,
              (if email != "" then some (pyLower (pyStrip email)) else none), grade, 0⟩]
          next_student_id := st.next_student_id + 1 })

/-- `find_or_create_student(name, email, grade)`: if `email` is truthy,
look the student up by `email.strip().lower()` and, when found, refresh
that row's `name` and `grade` (`UPDATE … WHERE id = ?`); otherwise fall
back to a lookup by `name.strip()` and, failing that, insert a new row. -/
def find_or_create_student (st : DBState) (name email : String) (grade : Option String) :
    Nat × DBState :=
  if email != "" then
    match st.students.find? (fun s => s.email == some (pyLower (pyStrip email))) with
    | some row =>
        (row.id,
         { st with
            students := st.students.map
              (fun s => if s.id == row.id then { s with name := pyStrip name, grade := grade } else s) })
    | none => focs_fallback st name email grade
  else focs_fallback st name email grade

/-- `admin_delete(bid)`: `DELETE FROM bookings WHERE id = ?`. -/
def admin_delete (st : DBState) (bid : Nat) : DBState :=
  { st with bookings := st.bookings.filter (fun b => b.id != bid) }

/-- `admin_redflag(student_id)`:
`UPDATE students SET black_points = black_points + 1 WHERE id = ?`. -/
def admin_redflag (st : DBState) (student_id : Nat) : DBState :=
  { st with
      students := st.students.map
        (fun s => if s.id == student_id then { s with black_points := s.black_points + 1 } else s) }

/-- `row['black_points'] if row else 0` after
`SELECT black_points FROM students WHERE id = ?` (lines 633–638). -/
def lookupBP (st : DBState) (sid : Nat) : Nat :=
  match st.students.find? (fun s => s.id == sid) with
  | some row => row.black_points
  | none => 0

/-- The page rendered by the `submit_booking` endpoint: `FAIL_HTML` or
`SUCCESS_HTML`, with the message interpolated into it. -/
inductive SubmitResult where
  | fail (msg : String)
  | success (msg : String)
deriving DecidableEq, Repr

/-- The `/submit_booking` endpoint.  `booking_date`, `sport`, `name`,
`email_raw`, `grade_raw`, `others` are the raw form fields; `parsed` is
the result of `datetime.strptime(booking_date, "%Y-%m-%d")` (`none` when
it raises), as the date's ordinal; `period` is `int(period_field)`, the
form's period field being its non-empty decimal spelling (so the
`all([...])` falsiness check reduces to the three string fields); `now` is
the `datetime.utcnow().isoformat()` read inside `create_booking`.
`ENFORCE_SCHOOL_EMAIL` is `False`, so the email-pattern check is dead. -/
def submit_booking (st : DBState) (booking_date : String) (parsed : Option Nat) (period : Int)
    (sport name email_raw grade_raw others now : String) : SubmitResult × DBState :=
  let email := pyLower (pyStrip email_raw)
  if booking_date == "" || sport == "" || name == "" then
    (.fail "Missing required fields.", st)
  else
    match parsed with
    | none => (.fail "Invalid date format.", st)
    | some bdate =>
        let periods := get_day_periods bdate
        match periods.find? (fun x => (x.period : Int) == period) with
        | none => (.fail "Selected period cannot be booked.", st)
        | some p =>
            if !p.bookable then (.fail "Selected period cannot be booked.", st)
            else
              let grade := normalize_grade_input grade_raw
              let r1 := find_or_create_student st name email grade
              let leader_id := r1.1
              let st1 := r1.2
              let r2 := create_booking st1 booking_date period sport (some leader_id) others now
              let st2 := r2.2
              if r2.1.1 then
                let threshold : Int :=
                  match get_setting st2 "blackpoint_threshold" with
                  | some v => pyInt v
                  | none => BLACKPOINTS_DEFAULT_THRESHOLD
                if (lookupBP st2 leader_id : Int) ≥ threshold then
                  (.success "Booked successfully. You have been flagged: please see the supervisor in person.", st2)
                else
                  (.success "Booked successfully. See you at the court!", st2)
              else
                if r2.1.2 == some "slot_taken" then
                  (.fail "Slot already taken. Try a different period or sport.", st2)
                else
                  (.fail ("Failed: " ++ (r2.1.2.getD "")), st2)

/-! ## Reachability -/

/-- One database transition: any of the program's state-changing
operations, with arbitrary arguments. -/
inductive Step : DBState → DBState → Prop where
  | submit (st : DBState) (bd : String) (parsed : Option Nat) (period : Int)
      (sport name email grade others now : String) :
      Step st (submit_booking st bd parsed period sport name email grade others now).2
  | create (st : DBState) (bd : String) (period : Int) (sport : String)
      (leader : Option Nat) (others now : String) :
      Step st (create_booking st bd period sport leader others now).2
  | focs (st : DBState) (name email : String) (grade : Option String) :
      Step st (find_or_create_student st name email grade).2
  | delete (st : DBState) (bid : Nat) :
      Step st (admin_delete st bid)
  | redflag (st : DBState) (sid : Nat) :
      Step st (admin_redflag st sid)
  | setset (st : DBState) (key value : String) :
      Step st (set_setting st key value)

/-- The database states reachable from a fresh `init_db()` database by
any sequence of the program's operations. -/
inductive Reachable : DBState → Prop where
  | init : Reachable initState
  | step {st st' : DBState} : Reachable st → Step st st' → Reachable st'

/-- The slot-uniqueness invariant: no two rows of `bookings` share a
`(booking_date, period, sport)` triple. -/
def slotUnique (st : DBState) : Prop :=
  st.bookings.Pairwise
    (fun a b => ¬(a.booking_date = b.booking_date ∧ a.period = b.period ∧ a.sport = b.sport))

/-! ## Helper lemmas -/

theorem focs_fallback_bookings (st : DBState) (name email : String) (grade : Option String) :
    ((focs_fallback st name email grade).2).bookings = st.bookings := by
  unfold focs_fallback
  split <;> rfl

theorem find_or_create_student_bookings (st : DBState) (name email : String)
    (grade : Option String) :
    ((find_or_create_student st name email grade).2).bookings = st.bookings := by
  unfold find_or_create_student
  split
  · split
    · rfl
    · exact focs_fallback_bookings ..
  · exact focs_fallback_bookings ..

theorem create_booking_students (st : DBState) (bd : String) (p : Int) (sp : String)
    (lid : Option Nat) (op now : String) :
    ((create_booking st bd p sp lid op now).2).students = st.students := by
  unfold create_booking
  split <;> rfl

theorem create_booking_settings (st : DBState) (bd : String) (p : Int) (sp : String)
    (lid : Option Nat) (op now : String) :
    ((create_booking st bd p sp lid op now).2).settings = st.settings := by
  unfold create_booking
  split <;> rfl

theorem length_filter_pos_eq_any {α : Type} (p : α → Bool) (l : List α) :
    decide (0 < (l.filter p).length) = l.any p := by
  induction l with
  | nil => rfl
  | cons a l ih =>
      simp only [List.filter_cons, List.any_cons]
      by_cases h : p a = true
      · simp [h]
      · simp [h, ih]

theorem is_slot_taken_eq_any (st : DBState) (bd : String) (p : Int) (sp : String) :
    is_slot_taken st bd p sp =
      st.bookings.any (fun b => b.booking_date == bd && b.period == p && b.sport == sp) := by
  unfold is_slot_taken
  exact length_filter_pos_eq_any _ _

theorem create_booking_preserves_slotUnique (st : DBState) (bd : String) (p : Int) (sp : String)
    (lid : Option Nat) (op now : String) (h : slotUnique st) :
    slotUnique (create_booking st bd p sp lid op now).2 := by
  unfold create_booking
  split
  · exact h
  · rename_i hany
    unfold slotUnique at h ⊢
    simp only [List.pairwise_append, List.pairwise_cons, List.mem_singleton]
    refine ⟨h, by simp, ?_⟩
    intro a ha b hb
    subst hb
    simp only [List.any_eq_true, Bool.and_eq_true, beq_iff_eq] at hany
    intro ⟨h1, h2, h3⟩
    exact hany ⟨a, ha, ⟨h1, h2⟩, h3⟩

theorem slotUnique_of_bookings_eq {st st' : DBState} (h : st'.bookings = st.bookings)
    (hu : slotUnique st) : slotUnique st' := by
  unfold slotUnique at hu ⊢
  rw [h]
  exact hu

theorem submit_booking_preserves_slotUnique (st : DBState) (bd : String) (parsed : Option Nat)
    (period : Int) (sport name email grade others now : String) (h : slotUnique st) :
    slotUnique (submit_booking st bd parsed period sport name email grade others now).2 := by
  unfold submit_booking
  dsimp only
  split
  · exact h
  · split
    · exact h
    · split
      · exact h
      · split
        · exact h
        · have h1 : slotUnique (find_or_create_student st name
              (pyLower (pyStrip email)) (normalize_grade_input grade)).2 :=
            slotUnique_of_bookings_eq (find_or_create_student_bookings ..) h
          have h2 : slotUnique (create_booking (find_or_create_student st name
              (pyLower (pyStrip email)) (normalize_grade_input grade)).2 bd period sport
              (some (find_or_create_student st name (pyLower (pyStrip email))
                (normalize_grade_input grade)).1) others now).2 :=
            create_booking_preserves_slotUnique _ _ _ _ _ _ _ h1
          split
          · split <;> exact h2
          · split <;> exact h2

theorem step_preserves_slotUnique {st st' : DBState} (hs : Step st st') (h : slotUnique st) :
    slotUnique st' := by
  cases hs with
  | submit bd parsed period sport name email grade others now =>
      exact submit_booking_preserves_slotUnique st bd parsed period sport name email grade
        others now h
  | create bd period sport leader others now =>
      exact create_booking_preserves_slotUnique st bd period sport leader others now h
  | focs name email grade =>
      exact slotUnique_of_bookings_eq (find_or_create_student_bookings ..) h
  | delete bid =>
      unfold slotUnique at h ⊢
      unfold admin_delete
      exact h.sublist (List.filter_sublist _)
  | redflag sid => exact h
  | setset key value => exact h

/-! ## Claims -/

/-- **C1**: in every database state reachable by any sequence of the
program's operations, at most one row of the bookings table has any given
`(booking_date, period, sport)` triple. -/
theorem slot_uniqueness_invariant (st : DBState) (h : Reachable st) : slotUnique st := by
  induction h with
  | init => simp [slotUnique, initState]
  | step _ hs ih => exact step_preserves_slotUnique hs ih

/-- Witness for C1: the invariant evaluated at a concrete reachable state. -/
theorem slot_uniqueness_invariant_witness : slotUnique initState :=
  slot_uniqueness_invariant initState Reachable.init

/-- **C2**: `create_booking` returns `(False, "slot_taken")` and leaves the
bookings table unchanged if and only if a booking with the same
`(booking_date, period, sport)` already exists; otherwise it returns
`(True, None)` and the bookings table afterwards is the old table plus
exactly one new row with those field values. -/
theorem create_booking_error_behaviour (st : DBState) (bd : String) (p : Int) (sp : String)
    (lid : Option Nat) (op now : String) :
    ((∃ b ∈ st.bookings, b.booking_date = bd ∧ b.period = p ∧ b.sport = sp) →
       (create_booking st bd p sp lid op now).1 = (false, some "slot_taken") ∧
       (create_booking st bd p sp lid op now).2 = st) ∧
    ((¬∃ b ∈ st.bookings, b.booking_date = bd ∧ b.period = p ∧ b.sport = sp) →
       (create_booking st bd p sp lid op now).1 = (true, none) ∧
       (create_booking st bd p sp lid op now).2.bookings =
         st.bookings ++ [⟨st.next_booking_id, bd, p, sp, lid, op, now⟩]) ∧
    ((create_booking st bd p sp lid op now).1 = (false, some "slot_taken") ∧
       (create_booking st bd p sp lid op now).2 = st ↔
     ∃ b ∈ st.bookings, b.booking_date = bd ∧ b.period = p ∧ b.sport = sp) := by
  have hiff : (st.bookings.any
      (fun b => b.booking_date == bd && b.period == p && b.sport == sp) = true) ↔
      ∃ b ∈ st.bookings, b.booking_date = bd ∧ b.period = p ∧ b.sport = sp := by
    simp [List.any_eq_true, and_assoc]
  unfold create_booking
  split
  · rename_i hany
    refine ⟨fun _ => ⟨rfl, rfl⟩, fun hne => absurd (hiff.mp hany) hne, ?_⟩
    exact ⟨fun _ => hiff.mp hany, fun _ => ⟨rfl, rfl⟩⟩
  · rename_i hany
    have hne : ¬∃ b ∈ st.bookings, b.booking_date = bd ∧ b.period = p ∧ b.sport = sp :=
      fun hex => hany (hiff.mpr hex)
    refine ⟨fun hex => absurd hex hne, fun _ => ⟨rfl, rfl⟩, ?_⟩
    constructor
    · intro ⟨hfst, _⟩
      simp at hfst
    · intro hex
      exact absurd hex hne

/-- Witness for C2: on the empty initial database the insert succeeds and
appends exactly the new row. -/
theorem create_booking_error_behaviour_witness :
    (¬∃ b ∈ initState.bookings,
        b.booking_date = "2025-09-01" ∧ b.period = 1 ∧ b.sport = "Football") ∧
    (create_booking initState "2025-09-01" 1 "Football" (some 1) "" "now").1 = (true, none) ∧
    (create_booking initState "2025-09-01" 1 "Football" (some 1) "" "now").2.bookings =
      [⟨1, "2025-09-01", 1, "Football", some 1, "", "now"⟩] := by
  have hne : ¬∃ b ∈ initState.bookings,
      b.booking_date = "2025-09-01" ∧ b.period = 1 ∧ b.sport = "Football" := by
    simp [initState]
  have h := (create_booking_error_behaviour initState "2025-09-01" 1 "Football"
    (some 1) "" "now").2.1 hne
  exact ⟨hne, h.1, by rw [h.2]; rfl⟩

theorem weekday_lt_7 (d : Nat) : weekday d < 7 :=
  Nat.mod_lt _ (by omega)

/-- **C3**: Mondays and Wednesdays have exactly 8 periods of 45 minutes,
Tuesdays and Thursdays exactly 9 periods of 40 minutes, and Fridays,
Saturdays and Sundays have no periods at all. -/
theorem weekday_period_counts_and_lengths (d : Nat) :
    (weekday d = 0 ∨ weekday d = 2 →
       (get_day_periods d).length = 8 ∧
       ∀ p ∈ get_day_periods d, p.pend - p.pstart = 45) ∧
    (weekday d = 1 ∨ weekday d = 3 →
       (get_day_periods d).length = 9 ∧
       ∀ p ∈ get_day_periods d, p.pend - p.pstart = 40) ∧
    (weekday d = 4 ∨ weekday d = 5 ∨ weekday d = 6 → get_day_periods d = []) := by
  have hgd : get_day_periods d = periodsForWeekday (weekday d) := rfl
  have h7 := weekday_lt_7 d
  rw [hgd]
  generalize weekday d = w at h7 ⊢
  interval_cases w <;> decide

/-- Witness for C3: each hypothesis discharged at a concrete date
(ordinals 1, 2, 5 are a Monday, a Tuesday, a Friday). -/
theorem weekday_period_counts_and_lengths_witness :
    ((get_day_periods 1).length = 8 ∧ ∀ p ∈ get_day_periods 1, p.pend - p.pstart = 45) ∧
    ((get_day_periods 2).length = 9 ∧ ∀ p ∈ get_day_periods 2, p.pend - p.pstart = 40) ∧
    get_day_periods 5 = [] :=
  ⟨(weekday_period_counts_and_lengths 1).1 (Or.inl (by decide)),
   (weekday_period_counts_and_lengths 2).2.1 (Or.inl (by decide)),
   (weekday_period_counts_and_lengths 5).2.2 (Or.inl (by decide))⟩

/-- **C4**: on every school day the periods are numbered 1..n in order,
the first starts at 07:30 (minute 450), each ends `period_length` minutes
after it starts, periods 1–4 are back-to-back, a 25-minute break separates
periods 4 and 5, periods 5–7 are back-to-back, a 15-minute break separates
periods 7 and 8, the remaining periods are back-to-back, and the last
period ends at 14:10 (minute 850). -/
theorem period_start_end_rules (d : Nat) (h : weekday d ≤ 3) :
    ((get_day_periods d).head?.map PeriodInfo.pstart = some 450) ∧
    (∀ i : Fin (get_day_periods d).length, ((get_day_periods d).get i).period = i.1 + 1) ∧
    (∀ p ∈ get_day_periods d,
       p.pend = p.pstart + (if weekday d = 0 ∨ weekday d = 2 then 45 else 40)) ∧
    (∀ i : Fin (get_day_periods d).length, ∀ hi : i.1 + 1 < (get_day_periods d).length,
       ((get_day_periods d).get ⟨i.1 + 1, hi⟩).pstart =
         ((get_day_periods d).get i).pend +
           (if ((get_day_periods d).get i).period = 4 then 25
            else if ((get_day_periods d).get i).period = 7 then 15 else 0)) ∧
    (((get_day_periods d).getLast?).map PeriodInfo.pend = some 850) := by
  have hgd : get_day_periods d = periodsForWeekday (weekday d) := rfl
  have h7 := weekday_lt_7 d
  rw [hgd]
  generalize weekday d = w at h7 h ⊢
  interval_cases w <;> decide

/-- Witness for C4: the rules evaluated on a concrete Monday. -/
theorem period_start_end_rules_witness :
    weekday 1 ≤ 3 ∧ ((get_day_periods 1).getLast?).map PeriodInfo.pend = some 850 :=
  ⟨by decide, (period_start_end_rules 1 (by decide)).2.2.2.2⟩

/-- **C5**: on every school day the last period is not bookable, on
Thursdays the first period is also not bookable, every other period is
bookable; and `submit_booking` renders a failure page and leaves the state
unchanged whenever every period of the day carrying the requested number
is non-bookable (in particular when the number is absent from the day's
list or the period carrying it is marked non-bookable). -/
theorem non_bookable_periods (d : Nat) (st : DBState) (bd : String) (period : Int)
    (sport name email grade_raw others now : String) (hsd : weekday d ≤ 3) :
    (((get_day_periods d).getLast?).map PeriodInfo.bookable = some false) ∧
    (weekday d = 3 → ((get_day_periods d).head?).map PeriodInfo.bookable = some false) ∧
    (∀ i : Fin (get_day_periods d).length,
       i.1 + 1 ≠ (get_day_periods d).length → (weekday d = 3 → i.1 ≠ 0) →
       ((get_day_periods d).get i).bookable = true) ∧
    ((∀ p ∈ get_day_periods d, (p.period : Int) = period → p.bookable = false) →
       (∃ m, (submit_booking st bd (some d) period sport name email grade_raw others now).1 =
          SubmitResult.fail m) ∧
       (submit_booking st bd (some d) period sport name email grade_raw others now).2 = st) := by
  refine ⟨?_, ?_, ?_, ?_⟩
  case _ =>
    have hgd : get_day_periods d = periodsForWeekday (weekday d) := rfl
    have h7 := weekday_lt_7 d
    rw [hgd]
    generalize weekday d = w at h7 hsd ⊢
    interval_cases w <;> decide
  case _ =>
    have hgd : get_day_periods d = periodsForWeekday (weekday d) := rfl
    have h7 := weekday_lt_7 d
    rw [hgd]
    generalize weekday d = w at h7 hsd ⊢
    interval_cases w <;> decide
  case _ =>
    have hgd : get_day_periods d = periodsForWeekday (weekday d) := rfl
    have h7 := weekday_lt_7 d
    rw [hgd]
    generalize weekday d = w at h7 hsd ⊢
    interval_cases w <;> decide
  case _ =>
    intro hnb
    unfold submit_booking
    dsimp only
    split
    · exact ⟨⟨_, rfl⟩, rfl⟩
    · split
      · exact ⟨⟨_, rfl⟩, rfl⟩
      · rename_i p hfind
        have hp : p ∈ get_day_periods d := List.mem_of_find?_eq_some hfind
        have hb : p.bookable = false :=
          hnb p hp (by simpa using List.find?_some hfind)
        rw [hb]
        exact ⟨⟨_, rfl⟩, rfl⟩

theorem focs_fallback_settings (st : DBState) (name email : String) (grade : Option String) :
    ((focs_fallback st name email grade).2).settings = st.settings := by
  unfold focs_fallback
  split <;> rfl

theorem find_or_create_student_settings (st : DBState) (name email : String)
    (grade : Option String) :
    ((find_or_create_student st name email grade).2).settings = st.settings := by
  unfold find_or_create_student
  split
  · split
    · rfl
    · exact focs_fallback_settings ..
  · exact focs_fallback_settings ..

theorem lookupBP_eq_of_students_eq {st st' : DBState} (h : st'.students = st.students)
    (sid : Nat) : lookupBP st' sid = lookupBP st sid := by
  unfold lookupBP
  rw [h]

theorem get_setting_eq_of_settings_eq {st st' : DBState} (h : st'.settings = st.settings)
    (key : String) : get_setting st' key = get_setting st key := by
  unfold get_setting
  rw [h]

/-- **C6**: a successful booking replies with the in-person-supervisor
message exactly when the leader's black-point count has reached the
configured `blackpoint_threshold`, and with the ordinary success message
otherwise.  The leader is the student `find_or_create_student` returns
for the submitted name/email, and the count is read after that call. -/
theorem blackpoint_threshold_message (st : DBState) (bd : String) (d : Nat) (period : Int)
    (sport name email_raw grade_raw others now m : String)
    (hs : (submit_booking st bd (some d) period sport name email_raw grade_raw others now).1 =
      SubmitResult.success m) :
    ((lookupBP (find_or_create_student st name (pyLower (pyStrip email_raw))
          (normalize_grade_input grade_raw)).2
        (find_or_create_student st name (pyLower (pyStrip email_raw))
          (normalize_grade_input grade_raw)).1 : Int) ≥
       (match get_setting st "blackpoint_threshold" with
        | some v => pyInt v
        | none => BLACKPOINTS_DEFAULT_THRESHOLD) →
      m = "Booked successfully. You have been flagged: please see the supervisor in person.") ∧
    (¬((lookupBP (find_or_create_student st name (pyLower (pyStrip email_raw))
          (normalize_grade_input grade_raw)).2
        (find_or_create_student st name (pyLower (pyStrip email_raw))
          (normalize_grade_input grade_raw)).1 : Int) ≥
       (match get_setting st "blackpoint_threshold" with
        | some v => pyInt v
        | none => BLACKPOINTS_DEFAULT_THRESHOLD)) →
      m = "Booked successfully. See you at the court!") := by
  unfold submit_booking at hs
  dsimp only at hs
  split at hs
  · simp at hs
  · split at hs
    · simp at hs
    · split at hs
      · simp at hs
      · have hstud : (create_booking (find_or_create_student st name (pyLower (pyStrip email_raw))
            (normalize_grade_input grade_raw)).2 bd period sport
            (some (find_or_create_student st name (pyLower (pyStrip email_raw))
              (normalize_grade_input grade_raw)).1) others now).2.students =
            (find_or_create_student st name (pyLower (pyStrip email_raw))
              (normalize_grade_input grade_raw)).2.students := create_booking_students ..
        have hset : get_setting (create_booking (find_or_create_student st name
            (pyLower (pyStrip email_raw)) (normalize_grade_input grade_raw)).2 bd period sport
            (some (find_or_create_student st name (pyLower (pyStrip email_raw))
              (normalize_grade_input grade_raw)).1) others now).2 "blackpoint_threshold" =
            get_setting st "blackpoint_threshold" := by
          rw [get_setting_eq_of_settings_eq (create_booking_settings ..),
            get_setting_eq_of_settings_eq (find_or_create_student_settings ..)]
        split at hs
        · split at hs
          · rename_i hcond
            rw [lookupBP_eq_of_students_eq hstud, hset] at hcond
            have hm : m = "Booked successfully. You have been flagged: please see the supervisor in person." := by
              simpa using hs.symm
            exact ⟨fun _ => hm, fun hn => absurd hcond hn⟩
          · rename_i hcond
            rw [lookupBP_eq_of_students_eq hstud, hset] at hcond
            have hm : m = "Booked successfully. See you at the court!" := by
              simpa using hs.symm
            exact ⟨fun hc => absurd hc hcond, fun _ => hm⟩
        · split at hs
          · simp at hs
          · simp at hs

/-- Witness for C6: a leader with 3 black points at the default threshold
3 gets the supervisor message on a successful booking. -/
theorem blackpoint_threshold_message_witness :
    (submit_booking
        { settings := [("blackpoint_threshold", "3")]
          students := [⟨1, "Alice", none, none, 3⟩]
          bookings := []
          next_student_id := 2
          next_booking_id := 1 }
        "2025-09-01" (some 1) 1 "Football" "Alice" "" "" "" "t").1 =
      SubmitResult.success
        "Booked successfully. You have been flagged: please see the supervisor in person." ∧
    "Booked successfully. You have been flagged: please see the supervisor in person." =
      "Booked successfully. You have been flagged: please see the supervisor in person." := by
  refine ⟨by decide, ?_⟩
  exact (blackpoint_threshold_message
    { settings := [("blackpoint_threshold", "3")]
      students := [⟨1, "Alice", none, none, 3⟩]
      bookings := []
      next_student_id := 2
      next_booking_id := 1 }
    "2025-09-01" 1 1 "Football" "Alice" "" "" "" "t"
    "Booked successfully. You have been flagged: please see the supervisor in person."
    (by decide)).1 (by decide)

/-- Witness for C5: booking Thursday's first period (ordinal 4 is a
Thursday, whose period 1 is the non-bookable club-house slot) fails and
leaves the database unchanged. -/
theorem non_bookable_periods_witness :
    weekday 4 ≤ 3 ∧
    (∀ p ∈ get_day_periods 4, (p.period : Int) = 1 → p.bookable = false) ∧
    (submit_booking initState "2025-09-04" (some 4) 1 "Football" "Alice" "" "" "" "t").2 =
      initState :=
  ⟨by decide, by decide,
   ((non_bookable_periods 4 initState "2025-09-04" 1 "Football" "Alice" "" "" "" "t"
      (by decide)).2.2.2 (by decide)).2⟩

/-- **C7**: `get_day_periods` and `normalize_grade_input` are pure
deterministic functions of their arguments: equal inputs give equal
outputs.  In this embedding both take no database-state, clock, or other
context argument, mirroring the source functions, which read neither the
database nor the clock; `get_day_periods` moreover depends on the date
only through its weekday. -/
theorem availability_deterministic :
    (∀ d₁ d₂ : Nat, d₁ = d₂ → get_day_periods d₁ = get_day_periods d₂) ∧
    (∀ d₁ d₂ : Nat, weekday d₁ = weekday d₂ → get_day_periods d₁ = get_day_periods d₂) ∧
    (∀ r₁ r₂ : String, r₁ = r₂ → normalize_grade_input r₁ = normalize_grade_input r₂) :=
  ⟨fun _ _ h => by rw [h],
   fun d₁ d₂ h => by unfold get_day_periods; rw [h],
   fun _ _ h => by rw [h]⟩

/-- Witness for C7: two dates a week apart produce the same period list,
and equal grade strings normalise equally. -/
theorem availability_deterministic_witness :
    get_day_periods 1 = get_day_periods 8 ∧
    normalize_grade_input "Y12" = normalize_grade_input "Y12" :=
  ⟨availability_deterministic.2.1 1 8 (by decide),
   availability_deterministic.2.2 "Y12" "Y12" rfl⟩

theorem map_id_of_forall_mem {α : Type} (f : α → α) (l : List α) (h : ∀ a ∈ l, f a = a) :
    l.map f = l := by
  induction l with
  | nil => rfl
  | cons a l ih =>
      simp only [List.map_cons, h a (by simp)]
      rw [ih (fun b hb => h b (by simp [hb]))]

/-- **C8**: calling `find_or_create_student` twice with the same
arguments returns the same student id both times and the second call
leaves the students table exactly as the first call left it.  The
hypothesis is the `AUTOINCREMENT` well-formedness of the table: every
stored id is below the next id SQLite will hand out. -/
theorem find_or_create_student_idempotent (st : DBState) (name email : String)
    (grade : Option String)
    (hwf : ∀ s ∈ st.students, s.id < st.next_student_id) :
    find_or_create_student (find_or_create_student st name email grade).2 name email grade =
      find_or_create_student st name email grade := by
  by_cases he : (email != "") = true
  · cases hf : st.students.find? (fun s => s.email == some (pyLower (pyStrip email))) with
    | some row =>
        have h1 : find_or_create_student st name email grade =
            (row.id, { st with students := st.students.map (fun s =>
              if s.id == row.id then { s with name := pyStrip name, grade := grade } else s) }) := by
          unfold find_or_create_student
          rw [if_pos he, hf]
        rw [h1]
        have hpe : (fun s : Student => s.email == some (pyLower (pyStrip email))) ∘
            (fun s => if s.id == row.id then { s with name := pyStrip name, grade := grade } else s) =
            (fun s : Student => s.email == some (pyLower (pyStrip email))) := by
          funext s
          by_cases h : s.id = row.id <;> simp [h]
        have hf2 : ({ st with students := st.students.map (fun s =>
              if s.id == row.id then { s with name := pyStrip name, grade := grade } else s) } :
            DBState).students.find? (fun s => s.email == some (pyLower (pyStrip email))) =
            some { row with name := pyStrip name, grade := grade } := by
          dsimp only
          rw [List.find?_map, hpe, hf]
          simp
        unfold find_or_create_student
        rw [if_pos he, hf2]
        have hid : ({ row with name := pyStrip name, grade := grade } : Student).id = row.id := rfl
        simp only [hid]
        have hmm : (st.students.map (fun s =>
              if s.id == row.id then { s with name := pyStrip name, grade := grade } else s)).map
            (fun s => if s.id == row.id then { s with name := pyStrip name, grade := grade } else s) =
            st.students.map (fun s =>
              if s.id == row.id then { s with name := pyStrip name, grade := grade } else s) := by
          rw [List.map_map]
          refine List.map_congr_left (fun a _ => ?_)
          by_cases h : a.id = row.id <;> simp [h]
        simp only [hmm]
    | none =>
        cases hg : st.students.find? (fun s => s.name == pyStrip name) with
        | some row =>
            have h1 : find_or_create_student st name email grade = (row.id, st) := by
              unfold find_or_create_student focs_fallback
              rw [if_pos he, hf, hg]
            rw [h1]
            exact h1
        | none =>
            have h1 : find_or_create_student st name email grade =
                (st.next_student_id,
                 { st with
                    students := st.students ++ [⟨st.next_student_id, pyStrip name,
                      some (pyLower (pyStrip email)), grade, 0⟩]
                    next_student_id := st.next_student_id + 1 }) := by
              unfold find_or_create_student focs_fallback
              rw [if_pos he, hf, hg, if_pos he]
            rw [h1]
            have hf2 : ({ st with
                students := st.students ++ [⟨st.next_student_id, pyStrip name,
                  some (pyLower (pyStrip email)), grade, 0⟩]
                next_student_id := st.next_student_id + 1 } :
                DBState).students.find? (fun s => s.email == some (pyLower (pyStrip email))) =
                some ⟨st.next_student_id, pyStrip name,
                  some (pyLower (pyStrip email)), grade, 0⟩ := by
              dsimp only
              rw [List.find?_append, hf]
              simp
            unfold find_or_create_student
            rw [if_pos he, hf2]
            have hmap : ((st.students ++ [(⟨st.next_student_id, pyStrip name,
                some (pyLower (pyStrip email)), grade, 0⟩ : Student)]).map (fun s =>
                  if s.id == st.next_student_id then
                    { s with name := pyStrip name, grade := grade } else s)) =
                st.students ++ [(⟨st.next_student_id, pyStrip name,
                  some (pyLower (pyStrip email)), grade, 0⟩ : Student)] := by
              rw [List.map_append]
              have hl : st.students.map (fun s =>
                  if s.id == st.next_student_id then
                    { s with name := pyStrip name, grade := grade } else s) = st.students := by
                refine map_id_of_forall_mem _ _ (fun s hs => ?_)
                have hne : (s.id == st.next_student_id) = false := by
                  simp [Nat.ne_of_lt (hwf s hs)]
                simp [hne]
              rw [hl]
              simp
            simp only [hmap]
  · cases hg : st.students.find? (fun s => s.name == pyStrip name) with
    | some row =>
        have h1 : find_or_create_student st name email grade = (row.id, st) := by
          unfold find_or_create_student focs_fallback
          rw [if_neg he, hg]
        rw [h1]
        exact h1
    | none =>
        have h1 : find_or_create_student st name email grade =
            (st.next_student_id,
             { st with
                students := st.students ++ [⟨st.next_student_id, pyStrip name, none, grade, 0⟩]
                next_student_id := st.next_student_id + 1 }) := by
          unfold find_or_create_student focs_fallback
          rw [if_neg he, hg, if_neg he]
        rw [h1]
        have hg2 : ({ st with
            students := st.students ++ [⟨st.next_student_id, pyStrip name, none, grade, 0⟩]
            next_student_id := st.next_student_id + 1 } :
            DBState).students.find? (fun s => s.name == pyStrip name) =
            some ⟨st.next_student_id, pyStrip name, none, grade, 0⟩ := by
          dsimp only
          rw [List.find?_append, hg]
          simp
        unfold find_or_create_student focs_fallback
        rw [if_neg he, hg2]

/-- Witness for C8: a double call on the empty initial database, where
the `AUTOINCREMENT` hypothesis holds vacuously. -/
theorem find_or_create_student_idempotent_witness :
    (∀ s ∈ initState.students, s.id < initState.next_student_id) ∧
    find_or_create_student
        (find_or_create_student initState "Alice" "a@b.c" (some "Year 12")).2
        "Alice" "a@b.c" (some "Year 12") =
      find_or_create_student initState "Alice" "a@b.c" (some "Year 12") :=
  ⟨by simp [initState],
   find_or_create_student_idempotent initState "Alice" "a@b.c" (some "Year 12")
     (by simp [initState])⟩

theorem find?_id_map_pres (f : Student → Student) (hid : ∀ s, (f s).id = s.id)
    (l : List Student) (sid : Nat) :
    (l.map f).find? (fun s => s.id == sid) = (l.find? (fun s => s.id == sid)).map f := by
  rw [List.find?_map]
  have hc : ((fun s : Student => s.id == sid) ∘ f) = (fun s : Student => s.id == sid) := by
    funext s
    simp [Function.comp, hid s]
  rw [hc]

theorem lookupBP_update_name_grade (st : DBState) (rid : Nat) (n : String) (g : Option String)
    (sid : Nat) :
    lookupBP { st with students := st.students.map (fun s =>
      if s.id == rid then { s with name := n, grade := g } else s) } sid =
      lookupBP st sid := by
  unfold lookupBP
  dsimp only
  rw [find?_id_map_pres]
  · cases st.students.find? (fun s => s.id == sid) with
    | none => rfl
    | some row =>
        dsimp only [Option.map_some']
        by_cases h : row.id = rid <;> simp [h]
  · intro s
    by_cases h : s.id = rid <;> simp [h]

theorem lookupBP_focs_fallback (st : DBState) (name email : String) (grade : Option String)
    (sid : Nat) :
    lookupBP (focs_fallback st name email grade).2 sid = lookupBP st sid := by
  unfold focs_fallback
  split
  · rfl
  · unfold lookupBP
    dsimp only
    rw [List.find?_append]
    cases hfl : st.students.find? (fun s => s.id == sid) with
    | some row => simp
    | none =>
        simp only [Option.none_or]
        by_cases h : st.next_student_id = sid <;> simp [h]

theorem lookupBP_focs (st : DBState) (name email : String) (grade : Option String) (sid : Nat) :
    lookupBP (find_or_create_student st name email grade).2 sid = lookupBP st sid := by
  unfold find_or_create_student
  split
  · split
    · exact lookupBP_update_name_grade ..
    · exact lookupBP_focs_fallback ..
  · exact lookupBP_focs_fallback ..

theorem lookupBP_create (st : DBState) (bd : String) (period : Int) (sport : String)
    (leader : Option Nat) (others now : String) (sid : Nat) :
    lookupBP (create_booking st bd period sport leader others now).2 sid = lookupBP st sid :=
  lookupBP_eq_of_students_eq (create_booking_students ..) sid

theorem lookupBP_submit (st : DBState) (bd : String) (parsed : Option Nat) (period : Int)
    (sport name email grade others now : String) (sid : Nat) :
    lookupBP (submit_booking st bd parsed period sport name email grade others now).2 sid =
      lookupBP st sid := by
  unfold submit_booking
  dsimp only
  split
  · rfl
  · split
    · rfl
    · split
      · rfl
      · split
        · rfl
        · have hchain : lookupBP (create_booking (find_or_create_student st name
              (pyLower (pyStrip email)) (normalize_grade_input grade)).2 bd period sport
              (some (find_or_create_student st name (pyLower (pyStrip email))
                (normalize_grade_input grade)).1) others now).2 sid = lookupBP st sid := by
            rw [lookupBP_create, lookupBP_focs]
          split
          · split <;> exact hchain
          · split <;> exact hchain

theorem lookupBP_redflag_ge (st : DBState) (target sid : Nat) :
    lookupBP st sid ≤ lookupBP (admin_redflag st target) sid := by
  unfold admin_redflag lookupBP
  dsimp only
  rw [find?_id_map_pres]
  · cases st.students.find? (fun s => s.id == sid) with
    | none => exact Nat.le_refl 0
    | some row =>
        dsimp only [Option.map_some']
        by_cases h : row.id = target <;> simp [h]
  · intro s
    by_cases h : s.id = target <;> simp [h]

/-- **C9**: no operation of the program decreases any student's
black-point count; the only operation that changes it is `admin_redflag`,
which adds exactly 1 to the targeted student and leaves every other
student row and the whole bookings table unchanged, while all the other
operations keep every student's count exactly as it was. -/
theorem black_points_never_decrease :
    (∀ st st' : DBState, Step st st' → ∀ sid : Nat, lookupBP st sid ≤ lookupBP st' sid) ∧
    (∀ (st : DBState) (sid : Nat),
       (admin_redflag st sid).bookings = st.bookings ∧
       (admin_redflag st sid).settings = st.settings ∧
       (admin_redflag st sid).students.length = st.students.length ∧
       (∀ s ∈ st.students, s.id ≠ sid → s ∈ (admin_redflag st sid).students) ∧
       (∀ s ∈ st.students, s.id = sid →
          { s with black_points := s.black_points + 1 } ∈ (admin_redflag st sid).students)) ∧
    (∀ (st : DBState) (bd : String) (parsed : Option Nat) (period : Int)
       (sport name email grade others now : String) (sid : Nat),
       lookupBP (submit_booking st bd parsed period sport name email grade others now).2 sid =
         lookupBP st sid) ∧
    (∀ (st : DBState) (bd : String) (period : Int) (sport : String) (leader : Option Nat)
       (others now : String) (sid : Nat),
       lookupBP (create_booking st bd period sport leader others now).2 sid = lookupBP st sid) ∧
    (∀ (st : DBState) (name email : String) (grade : Option String) (sid : Nat),
       lookupBP (find_or_create_student st name email grade).2 sid = lookupBP st sid) ∧
    (∀ (st : DBState) (bid sid : Nat), lookupBP (admin_delete st bid) sid = lookupBP st sid) ∧
    (∀ (st : DBState) (key value : String) (sid : Nat),
       lookupBP (set_setting st key value) sid = lookupBP st sid) := by
  refine ⟨?_, ?_, ?_, ?_, ?_, ?_, ?_⟩
  · intro st st' hs sid
    cases hs with
    | submit bd parsed period sport name email grade others now =>
        exact Nat.le_of_eq (lookupBP_submit ..).symm
    | create bd period sport leader others now =>
        exact Nat.le_of_eq (lookupBP_create ..).symm
    | focs name email grade =>
        exact Nat.le_of_eq (lookupBP_focs ..).symm
    | delete bid => exact Nat.le_refl _
    | redflag target => exact lookupBP_redflag_ge st target sid
    | setset key value => exact Nat.le_refl _
  · intro st sid
    refine ⟨rfl, rfl, by simp [admin_redflag], ?_, ?_⟩
    · intro s hs hne
      have : (if s.id == sid then { s with black_points := s.black_points + 1 } else s) = s := by
        simp [hne]
      exact this ▸ List.mem_map_of_mem _ hs
    · intro s hs heq
      have : (if s.id == sid then { s with black_points := s.black_points + 1 } else s) =
          { s with black_points := s.black_points + 1 } := by
        simp [heq]
      exact this ▸ List.mem_map_of_mem _ hs
  · intro st bd parsed period sport name email grade others now sid
    exact lookupBP_submit ..
  · intro st bd period sport leader others now sid
    exact lookupBP_create ..
  · intro st name email grade sid
    exact lookupBP_focs ..
  · intro st bid sid
    rfl
  · intro st key value sid
    rfl

/-- Witness for C9: the monotonicity applied to a concrete red-flag step. -/
theorem black_points_never_decrease_witness :
    lookupBP initState 1 ≤ lookupBP (admin_redflag initState 1) 1 :=
  black_points_never_decrease.1 initState (admin_redflag initState 1)
    (Step.redflag initState 1) 1

theorem filter_ne_length_ge (bid : Nat) (l : List Booking)
    (h : (l.map Booking.id).Nodup) :
    l.length ≤ (l.filter (fun b => b.id != bid)).length + 1 := by
  induction l with
  | nil => simp
  | cons a l ih =>
      simp only [List.map_cons, List.nodup_cons] at h
      by_cases ha : a.id = bid
      · have hkeep : l.filter (fun b => b.id != bid) = l := by
          refine List.filter_eq_self.mpr (fun b hb => ?_)
          have : b.id ≠ bid := by
            intro hc
            exact h.1 (by rw [ha, ← hc]; exact List.mem_map_of_mem _ hb)
          simp [this]
        simp [List.filter_cons, ha, hkeep]
      · have := ih h.2
        simp only [List.filter_cons]
        have hb : (a.id != bid) = true := by simp [ha]
        rw [hb]
        simp only [if_true, List.length_cons]
        omega

/-- **C10**: `admin_delete` removes at most the single booking row whose
id matches, leaves every other booking row and the entire students table
(hence all black-point counts) and settings unchanged, and when no
booking has that id the state is completely unchanged. -/
theorem admin_delete_frame (st : DBState) (bid : Nat) :
    ((admin_delete st bid).students = st.students) ∧
    ((admin_delete st bid).settings = st.settings) ∧
    ((admin_delete st bid).next_student_id = st.next_student_id) ∧
    ((admin_delete st bid).next_booking_id = st.next_booking_id) ∧
    (∀ b : Booking, b ∈ (admin_delete st bid).bookings ↔ b ∈ st.bookings ∧ b.id ≠ bid) ∧
    ((st.bookings.map Booking.id).Nodup →
       st.bookings.length ≤ (admin_delete st bid).bookings.length + 1) ∧
    ((∀ b ∈ st.bookings, b.id ≠ bid) → admin_delete st bid = st) := by
  refine ⟨rfl, rfl, rfl, rfl, ?_, ?_, ?_⟩
  · intro b
    unfold admin_delete
    dsimp only
    rw [List.mem_filter]
    simp
  · intro hnd
    exact filter_ne_length_ge bid st.bookings hnd
  · intro hall
    unfold admin_delete
    have : st.bookings.filter (fun b => b.id != bid) = st.bookings :=
      List.filter_eq_self.mpr (fun b hb => by simp [hall b hb])
    rw [this]

/-- Witness for C10: deleting a nonexistent id from a one-booking state
is a no-op, and the length bound holds there. -/
theorem admin_delete_frame_witness :
    (∀ b ∈ ({ settings := [("blackpoint_threshold", "3")]
              students := []
              bookings := [⟨1, "2025-09-01", 1, "Football", none, "", "t"⟩]
              next_student_id := 1
              next_booking_id := 2 } : DBState).bookings, b.id ≠ 2) ∧
    admin_delete
        { settings := [("blackpoint_threshold", "3")]
          students := []
          bookings := [⟨1, "2025-09-01", 1, "Football", none, "", "t"⟩]
          next_student_id := 1
          next_booking_id := 2 } 2 =
      { settings := [("blackpoint_threshold", "3")]
        students := []
        bookings := [⟨1, "2025-09-01", 1, "Football", none, "", "t"⟩]
        next_student_id := 1
        next_booking_id := 2 } :=
  ⟨by decide,
   (admin_delete_frame
      { settings := [("blackpoint_threshold", "3")]
        students := []
        bookings := [⟨1, "2025-09-01", 1, "Football", none, "", "t"⟩]
        next_student_id := 1
        next_booking_id := 2 } 2).2.2.2.2.2.2 (by decide)⟩

end BookingApp
